import Mathlib

/-!
Verification development for the Oracle-to-Parquet extraction and upload
pipeline (`pull_oracle_n_upload_to_fabric/run_all.py`).

The Python source is shallowly embedded below: pure string-building code
becomes Lean functions on `String`; the database connection becomes a
record of pure result-returning fields (`Conn`); fallible operations
return `Except`/`Option`; the observable database traffic of
`process_table` is recorded as an explicit event trace.  Python
truthiness of optional strings (`None` and `""` both falsy) is modelled
by `truthy : Option String → Bool`.
-/

namespace RunAll

/-- Python `str.upper()` on identifiers (ASCII uppercasing, applied
character by character).  `String.toUpper` itself is avoided because its
`mapAux` recursion does not reduce inside the kernel. -/
def str_upper (s : String) : String := (s.toList.map Char.toUpper).asString

/-- Quoting of an identifier as done throughout `generate_select_query`:
the name is wrapped in double quotes, preserving its exact case. -/
def quote_ident (n : String) : String := "\"" ++ n ++ "\""

/-- One element of the `select_clauses` list comprehension of
`generate_select_query` (run_all.py line 176): a column whose declared
type is exactly `NUMBER` is wrapped in
`CAST("c" AS NUMBER(precision,scale)) AS "c"`; any other column becomes
just its quoted name. -/
def select_clause (precision scale : Nat) (cd : String × String) : String :=
  if cd.2 = "NUMBER" then
    "CAST(" ++ quote_ident cd.1 ++ " AS NUMBER(" ++ toString precision ++ ","
      ++ toString scale ++ ")) AS " ++ quote_ident cd.1
  else
    quote_ident cd.1

/-- Python `sep.join(clauses)`: clauses concatenated with `sep` between
consecutive elements, empty string for an empty list. -/
def join_clauses (sep : String) : List String → String
  | [] => ""
  | [cl] => cl
  | cl :: cls => cl ++ sep ++ join_clauses sep cls

/-- Embedding of `generate_select_query` (run_all.py lines 173-178).
Returns `none` for an empty column metadata list (Python `return None`);
otherwise builds
`SELECT\n  <clauses joined by ",\n  ">\nFROM "OWNER"."TABLE"` with both
the owner and the table name uppercased. -/
def generate_select_query (owner_name table_name_only : String)
    (column_metadata : List (String × String)) (precision scale : Nat) :
    Option String :=
  if column_metadata = [] then none
  else
    let select_clauses := column_metadata.map (select_clause precision scale)
    if select_clauses = [] then none
    else
      some ("SELECT\n  " ++ join_clauses ",\n  " select_clauses
        ++ "\nFROM " ++ quote_ident (str_upper owner_name) ++ "."
        ++ quote_ident (str_upper table_name_only))

/-- Python truthiness of an optional string: `None` and the empty string
are falsy, every other string is truthy.  This is exactly how
`all([...])` and `if local_parquet_path` treat these values. -/
def truthy : Option String → Bool
  | none => false
  | some s => decide (s ≠ "")

/-- Embedding of the check at run_all.py line 82:
`all([DB_USER, DB_PASSWORD, DB_DSN])`. -/
def ORACLE_CREDS_PRESENT (user password dsn : Option String) : Bool :=
  truthy user && truthy password && truthy dsn

/-- Embedding of run_all.py line 90:
`FABRIC_CONFIG_COMPLETE = all([FABRIC_TENANT_ID, FABRIC_CLIENT_ID,
FABRIC_CLIENT_SECRET, FABRIC_WORKSPACE_ID, FABRIC_LAKEHOUSE_ID])`. -/
def FABRIC_CONFIG_COMPLETE
    (tenant client secret workspace lakehouse : Option String) : Bool :=
  truthy tenant && truthy client && truthy secret
    && truthy workspace && truthy lakehouse

/-- Outcome of the startup validation (run_all.py lines 82-92): either
the process exits before any table is touched, or it proceeds with
uploads enabled or disabled for the whole run. -/
inductive StartupResult where
  | fatalExit : StartupResult
  | proceed : Bool → StartupResult
deriving DecidableEq

/-- Startup validation: missing/empty Oracle credentials are fatal
(run_all.py lines 82-84, `exit()` before any table is processed);
incomplete Fabric settings merely disable uploads for the run
(lines 90-92, a warning only). -/
def startup (user password dsn : Option String)
    (tenant client secret workspace lakehouse : Option String) :
    StartupResult :=
  if ORACLE_CREDS_PRESENT user password dsn then
    StartupResult.proceed
      (FABRIC_CONFIG_COMPLETE tenant client secret workspace lakehouse)
  else
    StartupResult.fatalExit

/-- The three arms of the per-table upload branch in `main`
(run_all.py lines 275-290). -/
inductive UploadAction where
  | upload : UploadAction
  | skippedIncomplete : UploadAction
  | skippedNoFile : UploadAction
deriving DecidableEq

/-- Embedding of the upload branch of `main` (run_all.py lines 275-290):
`if local_parquet_path and FABRIC_CONFIG_COMPLETE:` upload;
`elif local_parquet_path and not FABRIC_CONFIG_COMPLETE:` skip with a
logged warning (table is DONE); `else:` skip because no local file was
produced. -/
def upload_step (local_parquet_path : Option String)
    (fabric_config_complete : Bool) : UploadAction :=
  if truthy local_parquet_path then
    if fabric_config_complete then UploadAction.upload
    else UploadAction.skippedIncomplete
  else UploadAction.skippedNoFile

/-- One observable database interaction of `process_table`:
the `SYS_CONTEXT('USERENV','CURRENT_SCHEMA')` session query (line 192),
the `ALL_TAB_COLUMNS` metadata lookup with its bound owner and table
name (line 164), or the execution of a generated extraction query
(line 219, `pd.read_sql_query`). -/
inductive DBEvent where
  | sessionSchemaQuery : DBEvent
  | metadataQuery : String → String → DBEvent
  | extractionQuery : String → DBEvent
deriving DecidableEq

/-- The Oracle connection, abstracted to the three interactions
`process_table` performs.  `currentSchema` is the outcome of the
session-context query: a database error, no row (`fetchone` returned
nothing), or the fetched schema string.  `catalog` gives the
`ALL_TAB_COLUMNS` rows (name, data type, ordered by `COLUMN_ID`) for a
bound (owner, table) pair, or a database error.  `runQuery` is the
combined query-execution/materialization step; an error stands for any
of the exceptions caught at run_all.py lines 233-238. -/
structure Conn where
  currentSchema : Except String (Option String)
  catalog : String → String → Except String (List (String × String))
  runQuery : String → Except String Unit

/-- Embedding of `get_table_column_metadata` (run_all.py lines 162-171):
queries `ALL_TAB_COLUMNS` with the owner and table name uppercased, and
converts any database error into the empty list instead of propagating
it. -/
def get_table_column_metadata (conn : Conn)
    (owner_name table_name_only : String) : List (String × String) :=
  match conn.catalog (str_upper owner_name) (str_upper table_name_only) with
  | Except.error _ => []
  | Except.ok rows => rows

/-- Python `s.split('.', 1)` for a string known to contain a dot
(run_all.py line 188): the part before the first `'.'` and everything
after it. -/
def split_owner_table (s : String) : String × String :=
  ((s.toList.takeWhile (fun ch => decide (ch ≠ '.'))).asString,
   ((s.toList.dropWhile (fun ch => decide (ch ≠ '.'))).tail).asString)

/-- `os.path.join(dir, name)` for POSIX paths as used at run_all.py
line 227. -/
def os_path_join (a b : String) : String :=
  if b.toList.head? = some '/' then b
  else if a = "" ∨ a.toList.getLast? = some '/' then a ++ b
  else a ++ "/" ++ b

/-- The part of `process_table` after the owner has been resolved
(run_all.py lines 203-239): uppercase owner and table, fetch metadata,
bail out if it is empty, generate the query, bail out if it is falsy,
execute it and write the Parquet file, returning the local path on
success and `none` on any failure.  The second component is the trace
of database interactions, continuing the events accumulated while
resolving the owner. -/
def process_table_resolved (conn : Conn) (owner_name table_name_only : String)
    (local_output_dir local_file_name_cfg : String) (cast_prec cast_scl : Nat)
    (ev0 : List DBEvent) : Option String × List DBEvent :=
  let owner_name_std := str_upper owner_name
  let table_name_only_std := str_upper table_name_only
  let ev1 := ev0 ++ [DBEvent.metadataQuery owner_name_std table_name_only_std]
  let column_metadata :=
    get_table_column_metadata conn owner_name_std table_name_only_std
  if column_metadata = [] then (none, ev1)
  else
    match generate_select_query owner_name_std table_name_only_std
        column_metadata cast_prec cast_scl with
    | none => (none, ev1)
    | some select_query =>
      if select_query = "" then (none, ev1)
      else
        let ev2 := ev1 ++ [DBEvent.extractionQuery select_query]
        match conn.runQuery select_query with
        | Except.error _ => (none, ev2)
        | Except.ok _ =>
          (some (os_path_join local_output_dir local_file_name_cfg), ev2)

/-- Embedding of `process_table` (run_all.py lines 180-239).  A table
identifier containing a dot is split at its first dot into owner and
table name; otherwise the current session schema is resolved with one
session-context query, and a failure or empty result of that query
skips the table.  The result is the local Parquet path (`none` on
failure) paired with the trace of database interactions. -/
def process_table (conn : Conn) (oracle_table_full_name : String)
    (local_output_dir local_file_name_cfg : String)
    (cast_prec cast_scl : Nat) : Option String × List DBEvent :=
  if '.' ∈ oracle_table_full_name.toList then
    let p := split_owner_table oracle_table_full_name
    process_table_resolved conn p.1 p.2 local_output_dir local_file_name_cfg
      cast_prec cast_scl []
  else
    match conn.currentSchema with
    | Except.error _ => (none, [DBEvent.sessionSchemaQuery])
    | Except.ok none => (none, [DBEvent.sessionSchemaQuery])
    | Except.ok (some fetched_owner) =>
      process_table_resolved conn fetched_owner oracle_table_full_name
        local_output_dir local_file_name_cfg cast_prec cast_scl
        [DBEvent.sessionSchemaQuery]

/-- A connection whose catalog always reports an empty column list, as
for a missing table. -/
def connEmptyCatalog : Conn :=
  ⟨Except.ok (some "S"), fun _ _ => Except.ok [], fun _ => Except.ok ()⟩

/-- A connection resolving the session schema to `analytics` and serving
one-column metadata. -/
def connAnalytics : Conn :=
  ⟨Except.ok (some "analytics"), fun _ _ => Except.ok [("ID", "VARCHAR2")],
   fun _ => Except.ok ()⟩

/-- A connection whose metadata lookup always raises a database error. -/
def connMetadataError : Conn :=
  ⟨Except.ok none,
   fun _ _ => Except.error "ORA-00942: table or view does not exist",
   fun _ => Except.ok ()⟩

/-! ### Helper lemmas -/

lemma toList_append (a b : String) : (a ++ b).toList = a.toList ++ b.toList :=
  String.data_append a b

lemma mem_infix_join_clauses (sep : String) (cl : String) (l : List String)
    (h : cl ∈ l) : cl.toList <:+: (join_clauses sep l).toList := by
  induction l with
  | nil => cases h
  | cons x xs ih =>
    cases xs with
    | nil =>
      rcases List.mem_singleton.mp h with rfl
      exact List.infix_rfl
    | cons y ys =>
      rcases List.mem_cons.mp h with rfl | hmem
      · rw [show join_clauses sep (cl :: y :: ys)
            = cl ++ sep ++ join_clauses sep (y :: ys) from rfl]
        rw [toList_append, toList_append]
        exact ((List.prefix_append cl.toList sep.toList).trans
          (List.prefix_append _ _)).isInfix
      · rw [show join_clauses sep (x :: y :: ys)
            = x ++ sep ++ join_clauses sep (y :: ys) from rfl]
        rw [toList_append]
        exact (ih hmem).trans (List.suffix_append _ _).isInfix

lemma quote_infix_select_clause (p s : Nat) (cd : String × String) :
    (quote_ident cd.1).toList <:+: (select_clause p s cd).toList := by
  unfold select_clause
  by_cases h : cd.2 = "NUMBER"
  · rw [if_pos h, toList_append]
    exact (List.suffix_append _ _).isInfix
  · rw [if_neg h]

lemma generate_select_query_eq_some (o t : String)
    (md : List (String × String)) (p s : Nat) (h : md ≠ []) :
    generate_select_query o t md p s =
      some ("SELECT\n  " ++ join_clauses ",\n  " (md.map (select_clause p s))
        ++ "\nFROM " ++ quote_ident (str_upper o) ++ "."
        ++ quote_ident (str_upper t)) := by
  unfold generate_select_query
  rw [if_neg h, if_neg (by simpa using h)]

lemma truthy_eq_true_iff (v : Option String) :
    truthy v = true ↔ ∃ s, v = some s ∧ s ≠ "" := by
  cases v <;> simp [truthy]

lemma upload_step_eq_upload_iff (lp : Option String) (fc : Bool) :
    upload_step lp fc = UploadAction.upload ↔ truthy lp = true ∧ fc = true := by
  unfold upload_step
  cases h1 : truthy lp <;> cases fc <;> simp [h1]

lemma takeWhile_dot_append (l : List Char) (h : '.' ∈ l) :
    l.takeWhile (fun ch => decide (ch ≠ '.'))
      ++ '.' :: (l.dropWhile (fun ch => decide (ch ≠ '.'))).tail = l := by
  induction l with
  | nil => cases h
  | cons c cs ih =>
    by_cases hc : c = '.'
    · subst hc
      simp [List.takeWhile_cons, List.dropWhile_cons]
    · have hmem : '.' ∈ cs := by
        rcases List.mem_cons.mp h with h1 | h1
        · exact absurd h1.symm hc
        · exact h1
      simp [List.takeWhile_cons, List.dropWhile_cons, hc]
      simpa using ih hmem

lemma process_table_resolved_trace (conn : Conn) (o t d f : String)
    (p s : Nat) (ev0 : List DBEvent) :
    (process_table_resolved conn o t d f p s ev0).2
      = ev0 ++ [DBEvent.metadataQuery (str_upper o) (str_upper t)]
    ∨ ∃ q, generate_select_query (str_upper o) (str_upper t)
          (get_table_column_metadata conn (str_upper o) (str_upper t)) p s
          = some q
        ∧ (process_table_resolved conn o t d f p s ev0).2
          = ev0 ++ [DBEvent.metadataQuery (str_upper o) (str_upper t),
              DBEvent.extractionQuery q] := by
  unfold process_table_resolved
  by_cases hmd : get_table_column_metadata conn (str_upper o) (str_upper t) = []
  · left; simp [hmd]
  · rcases hq : generate_select_query (str_upper o) (str_upper t)
        (get_table_column_metadata conn (str_upper o) (str_upper t)) p s
        with _ | q
    · left; simp [hmd, hq]
    · by_cases hqe : q = ""
      · left; simp [hmd, hq, hqe]
      · right
        refine ⟨q, rfl, ?_⟩
        rcases hr : conn.runQuery q with e | u <;> simp [hmd, hq, hqe, hr]

lemma process_table_resolved_empty_md (conn : Conn) (o t d f : String)
    (p s : Nat) (ev0 : List DBEvent)
    (h : get_table_column_metadata conn (str_upper o) (str_upper t) = []) :
    process_table_resolved conn o t d f p s ev0
      = (none, ev0 ++ [DBEvent.metadataQuery (str_upper o) (str_upper t)]) := by
  unfold process_table_resolved
  simp [h]

/-! ### Claim theorems -/

/-- C1: for every non-empty column metadata list, `generate_select_query`
produces a query built from exactly one select clause per column of the
list, in the list's order (the clause at index `i` is the clause of the
column at index `i`), each clause referencing its own column's quoted
name; no column is added, dropped, or duplicated. -/
theorem generate_select_query_references_each_column_once
    (o t : String) (md : List (String × String)) (p s : Nat) (h : md ≠ []) :
    generate_select_query o t md p s =
      some ("SELECT\n  " ++ join_clauses ",\n  " (md.map (select_clause p s))
        ++ "\nFROM " ++ quote_ident (str_upper o) ++ "."
        ++ quote_ident (str_upper t))
    ∧ (md.map (select_clause p s)).length = md.length
    ∧ (∀ i : Nat, (md.map (select_clause p s))[i]?
        = md[i]?.map (select_clause p s))
    ∧ ∀ cd ∈ md,
        (quote_ident cd.1).toList <:+: (select_clause p s cd).toList := by
  refine ⟨generate_select_query_eq_some o t md p s h, by simp, ?_, ?_⟩
  · intro i
    simp
  · intro cd _
    exact quote_infix_select_clause p s cd

/-- Witness for C1 at a concrete one-column metadata list. -/
theorem generate_select_query_references_each_column_once_witness :
    generate_select_query "S" "T" [("ID", "VARCHAR2")] 22 0 =
      some ("SELECT\n  " ++ join_clauses ",\n  "
          ([("ID", "VARCHAR2")].map (select_clause 22 0))
        ++ "\nFROM " ++ quote_ident (str_upper "S") ++ "."
        ++ quote_ident (str_upper "T")) :=
  (generate_select_query_references_each_column_once "S" "T"
    [("ID", "VARCHAR2")] 22 0 (by decide)).1

/-- C2 counterexample: the cast keyword the code emits is `NUMBER`, not
`NUMERIC`; for a single `NUMBER` column `AMOUNT` with precision 22 and
scale 0 the generated query is not the `NUMERIC`-cast form the claim
states. -/
theorem select_clause_numeric_keyword_counterexample :
    generate_select_query "S" "T" [("AMOUNT", "NUMBER")] 22 0 ≠
      some "SELECT\n  CAST(\"AMOUNT\" AS NUMERIC(22,0)) AS \"AMOUNT\"\nFROM \"S\".\"T\"" := by
  decide

/-- C2 (amended): a column whose declared type is exactly the string
`NUMBER` is emitted as `CAST("c" AS NUMBER(precision,scale)) AS "c"`,
and every other column as its quoted name alone; the clause of each
column of the list occurs inside the generated query. -/
theorem generate_select_query_number_cast_clauses
    (o t : String) (md : List (String × String)) (p s : Nat)
    (cd : String × String) (h : cd ∈ md) :
    generate_select_query o t md p s =
      some ("SELECT\n  " ++ join_clauses ",\n  " (md.map (select_clause p s))
        ++ "\nFROM " ++ quote_ident (str_upper o) ++ "."
        ++ quote_ident (str_upper t))
    ∧ (select_clause p s cd).toList <:+:
        ("SELECT\n  " ++ join_clauses ",\n  " (md.map (select_clause p s))
          ++ "\nFROM " ++ quote_ident (str_upper o) ++ "."
          ++ quote_ident (str_upper t)).toList
    ∧ (cd.2 = "NUMBER" → select_clause p s cd =
        "CAST(" ++ quote_ident cd.1 ++ " AS NUMBER(" ++ toString p ++ ","
          ++ toString s ++ ")) AS " ++ quote_ident cd.1)
    ∧ (cd.2 ≠ "NUMBER" → select_clause p s cd = quote_ident cd.1) := by
  refine ⟨generate_select_query_eq_some o t md p s (List.ne_nil_of_mem h),
    ?_, ?_, ?_⟩
  · have h1 : select_clause p s cd ∈ md.map (select_clause p s) :=
      List.mem_map_of_mem _ h
    have h2 := mem_infix_join_clauses ",\n  " _ _ h1
    simp only [toList_append, List.append_assoc]
    exact h2.trans ((List.prefix_append _ _).isInfix.trans
      (List.suffix_append _ _).isInfix)
  · intro hnum
    simp [select_clause, hnum]
  · intro hnum
    simp [select_clause, hnum]

/-- Witness for C2 (amended) at the column `AMOUNT` of type `NUMBER`. -/
theorem generate_select_query_number_cast_clauses_witness :
    select_clause 22 0 ("AMOUNT", "NUMBER") =
      "CAST(" ++ quote_ident "AMOUNT" ++ " AS NUMBER(" ++ toString 22 ++ ","
        ++ toString 0 ++ ")) AS " ++ quote_ident "AMOUNT" :=
  (generate_select_query_number_cast_clauses "S" "T" [("AMOUNT", "NUMBER")]
    22 0 ("AMOUNT", "NUMBER") (by decide)).2.2.1 rfl

/-- C3 counterexample: for owner `SALES`, table `ORDERS`, the three
columns `ID`, `AMOUNT` (`NUMBER`), `STATUS` and precision/scale (22,0),
the returned query is not the claimed single-line string: the code
separates clauses with `,\n  ` (newline and two-space indent) and puts
`FROM` on its own line. -/
theorem generate_select_query_sales_orders_counterexample :
    generate_select_query "SALES" "ORDERS"
      [("ID", "VARCHAR2"), ("AMOUNT", "NUMBER"), ("STATUS", "VARCHAR2")]
      22 0 ≠
      some "SELECT \"ID\", CAST(\"AMOUNT\" AS NUMBER(22,0)) AS \"AMOUNT\", \"STATUS\" FROM \"SALES\".\"ORDERS\"" := by
  decide

/-- C3 (amended): for owner `SALES`, table `ORDERS`, columns `ID`,
`AMOUNT` (`NUMBER`), `STATUS` and precision/scale (22,0), the returned
query is exactly the multi-line string
`SELECT\n  "ID",\n  CAST("AMOUNT" AS NUMBER(22,0)) AS "AMOUNT",\n  "STATUS"\nFROM "SALES"."ORDERS"`. -/
theorem generate_select_query_sales_orders_exact :
    generate_select_query "SALES" "ORDERS"
      [("ID", "VARCHAR2"), ("AMOUNT", "NUMBER"), ("STATUS", "VARCHAR2")]
      22 0 =
      some "SELECT\n  \"ID\",\n  CAST(\"AMOUNT\" AS NUMBER(22,0)) AS \"AMOUNT\",\n  \"STATUS\"\nFROM \"SALES\".\"ORDERS\"" := by
  decide

/-- C4: the upload of a table is attempted if and only if all five
Fabric credential fields are set and non-empty and a local file path was
produced; when the credentials are incomplete but the local file was
written, the table ends in the explicitly-skipped (DONE) arm rather than
failing. -/
theorem upload_attempted_iff_fabric_complete_and_file_written
    (tenant client secret workspace lakehouse local_parquet_path :
      Option String) :
    (upload_step local_parquet_path
        (FABRIC_CONFIG_COMPLETE tenant client secret workspace lakehouse)
      = UploadAction.upload ↔
      ((∃ v, tenant = some v ∧ v ≠ "") ∧ (∃ v, client = some v ∧ v ≠ "")
        ∧ (∃ v, secret = some v ∧ v ≠ "")
        ∧ (∃ v, workspace = some v ∧ v ≠ "")
        ∧ (∃ v, lakehouse = some v ∧ v ≠ "")
        ∧ ∃ pth, local_parquet_path = some pth ∧ pth ≠ ""))
    ∧ (FABRIC_CONFIG_COMPLETE tenant client secret workspace lakehouse
          = false →
        truthy local_parquet_path = true →
        upload_step local_parquet_path
            (FABRIC_CONFIG_COMPLETE tenant client secret workspace lakehouse)
          = UploadAction.skippedIncomplete) := by
  constructor
  · rw [upload_step_eq_upload_iff]
    simp only [FABRIC_CONFIG_COMPLETE, Bool.and_eq_true, truthy_eq_true_iff]
    tauto
  · intro hfc htr
    simp [upload_step, htr, hfc]

/-- Witness for C4: with an empty client secret and the local file
written, the upload is skipped and the table is DONE. -/
theorem upload_attempted_iff_witness :
    upload_step (some "parquet_output/data.parquet")
      (FABRIC_CONFIG_COMPLETE (some "tenant") (some "client") (some "")
        (some "workspace") (some "lakehouse"))
      = UploadAction.skippedIncomplete :=
  (upload_attempted_iff_fabric_complete_and_file_written (some "tenant")
    (some "client") (some "") (some "workspace") (some "lakehouse")
    (some "parquet_output/data.parquet")).2 (by decide) (by decide)

/-- C5: on an empty column metadata list the query builder returns
`none`, and a table whose metadata comes back empty is processed to the
failure result with no extraction query ever executed. -/
theorem empty_metadata_fails_without_extraction
    (o t : String) (p s : Nat) (conn : Conn)
    (hcat : ∀ ow tb, conn.catalog ow tb = Except.ok [])
    (name dir file : String) :
    generate_select_query o t [] p s = none
    ∧ (process_table conn name dir file p s).1 = none
    ∧ ∀ q, DBEvent.extractionQuery q ∉ (process_table conn name dir file p s).2 := by
  have hmd : ∀ a b, get_table_column_metadata conn a b = [] := by
    intro a b
    simp [get_table_column_metadata, hcat]
  have key : (process_table conn name dir file p s).1 = none
      ∧ ∀ q, DBEvent.extractionQuery q
          ∉ (process_table conn name dir file p s).2 := by
    unfold process_table
    by_cases hd : '.' ∈ name.toList
    · have hres := process_table_resolved_empty_md conn
        (split_owner_table name).1 (split_owner_table name).2 dir file p s
        [] (hmd _ _)
      rw [if_pos hd]
      simp [hres]
    · rw [if_neg hd]
      rcases hcs : conn.currentSchema with e | mo
      · simp
      · rcases mo with _ | sch
        · simp
        · have hres := process_table_resolved_empty_md conn sch name dir
            file p s [DBEvent.sessionSchemaQuery] (hmd _ _)
          simp [hres]
  exact ⟨rfl, key.1, key.2⟩

/-- Witness for C5: a connection whose catalog is empty yields the
failure result for `SALES.ORDERS`. -/
theorem empty_metadata_fails_without_extraction_witness :
    (process_table connEmptyCatalog "SALES.ORDERS" "out" "f.parquet"
      22 0).1 = none :=
  (empty_metadata_fails_without_extraction "O" "T" 22 0 connEmptyCatalog
    (fun _ _ => rfl) "SALES.ORDERS" "out" "f.parquet").2.1

/-- C6: for a table identifier with no dot whose session-context query
returns a schema, the trace holds exactly one session-schema query, the
metadata lookup is issued for that schema uppercased, and any extraction
query executed is the one generated with that uppercased schema as
owner. -/
theorem session_schema_resolved_once_and_used
    (conn : Conn) (name dir file : String) (p s : Nat) (sch : String)
    (hnd : '.' ∉ name.toList)
    (hsch : conn.currentSchema = Except.ok (some sch)) :
    (process_table conn name dir file p s).2.count DBEvent.sessionSchemaQuery
      = 1
    ∧ DBEvent.metadataQuery (str_upper sch) (str_upper name)
        ∈ (process_table conn name dir file p s).2
    ∧ ∀ q, DBEvent.extractionQuery q ∈ (process_table conn name dir file p s).2 →
        generate_select_query (str_upper sch) (str_upper name)
          (get_table_column_metadata conn (str_upper sch) (str_upper name))
          p s = some q := by
  have hpt : process_table conn name dir file p s
      = process_table_resolved conn sch name dir file p s
          [DBEvent.sessionSchemaQuery] := by
    unfold process_table
    rw [if_neg hnd, hsch]
  rcases process_table_resolved_trace conn sch name dir file p s
      [DBEvent.sessionSchemaQuery] with htr | ⟨q, hq, htr⟩
  · rw [hpt, htr]
    refine ⟨by simp, by simp, ?_⟩
    intro q hq'
    simp at hq'
  · rw [hpt, htr]
    refine ⟨by simp, by simp, ?_⟩
    intro q' hq'
    simp at hq'
    rw [hq']
    exact hq

/-- Witness for C6: session schema `analytics` is looked up uppercased
for the dotless table `orders`. -/
theorem session_schema_resolved_once_and_used_witness :
    DBEvent.metadataQuery (str_upper "analytics") (str_upper "orders")
      ∈ (process_table connAnalytics "orders" "out" "data.parquet" 22 0).2 :=
  (session_schema_resolved_once_and_used connAnalytics "orders" "out"
    "data.parquet" 22 0 "analytics" (by decide) rfl).2.1

/-- C7: a database error raised by the column-metadata query is caught
inside `get_table_column_metadata`, which returns the empty list instead
of propagating the error. -/
theorem metadata_error_caught_returns_empty (conn : Conn) (o t e : String)
    (h : conn.catalog (str_upper o) (str_upper t) = Except.error e) :
    get_table_column_metadata conn o t = [] := by
  simp [get_table_column_metadata, h]

/-- Witness for C7: a connection whose catalog raises `ORA-00942` still
yields an empty metadata result. -/
theorem metadata_error_caught_returns_empty_witness :
    get_table_column_metadata connMetadataError "bad" "tbl" = [] :=
  metadata_error_caught_returns_empty connMetadataError "bad" "tbl"
    "ORA-00942: table or view does not exist" rfl

/-- C8: `generate_select_query` returns `none` exactly when the column
metadata list is empty; every non-empty list yields a query string. -/
theorem generate_select_query_none_iff_empty_metadata
    (o t : String) (md : List (String × String)) (p s : Nat) :
    generate_select_query o t md p s = none ↔ md = [] := by
  cases md <;> simp [generate_select_query]

/-- C9: a table identifier containing a dot is split at its first dot
only: the owner (which contains no dot) and the remainder concatenate
back to the identifier, `A.B.C` yields owner `A` and table `B.C`, and
such identifiers are not rejected — processing proceeds to the metadata
lookup for the split (uppercased) parts. -/
theorem table_name_split_at_first_dot (name : String)
    (h : '.' ∈ name.toList) :
    (split_owner_table name).1 ++ "." ++ (split_owner_table name).2 = name
    ∧ '.' ∉ (split_owner_table name).1.toList
    ∧ split_owner_table "A.B.C" = ("A", "B.C")
    ∧ ∀ conn dir file p s,
        DBEvent.metadataQuery (str_upper (split_owner_table name).1)
            (str_upper (split_owner_table name).2)
          ∈ (process_table conn name dir file p s).2 := by
  refine ⟨?_, ?_, by decide, ?_⟩
  · have hstr : ∀ a b : String, a.toList = b.toList → a = b := by
      intro a b hab
      cases a
      cases b
      exact congrArg String.mk hab
    apply hstr
    simp only [toList_append, split_owner_table]
    simpa [List.append_assoc] using takeWhile_dot_append name.toList h
  · intro hmem
    simp only [split_owner_table] at hmem
    have := List.mem_takeWhile_imp hmem
    simp at this
  · intro conn dir file p s
    have hpt : process_table conn name dir file p s
        = process_table_resolved conn (split_owner_table name).1
            (split_owner_table name).2 dir file p s [] := by
      unfold process_table
      rw [if_pos h]
    rcases process_table_resolved_trace conn (split_owner_table name).1
        (split_owner_table name).2 dir file p s [] with htr | ⟨q, hq, htr⟩
    · rw [hpt, htr]
      simp
    · rw [hpt, htr]
      simp

/-- Witness for C9 at the multi-dot identifier `A.B.C`. -/
theorem table_name_split_at_first_dot_witness :
    split_owner_table "A.B.C" = ("A", "B.C") :=
  (table_name_split_at_first_dot "A.B.C" (by decide)).2.2.1

/-- C10: an environment variable set to the empty string behaves like an
absent one; an empty Oracle credential makes startup exit fatally before
any table is processed, and an empty Fabric field merely disables
uploads for the run (the process proceeds, and the upload arm is never
taken). -/
theorem empty_env_var_same_as_absent
    (u pw d ft fc fs fw fl : Option String) :
    truthy (some "") = truthy none
    ∧ ((u = some "" ∨ pw = some "" ∨ d = some "") →
        startup u pw d ft fc fs fw fl = StartupResult.fatalExit)
    ∧ (ORACLE_CREDS_PRESENT u pw d = true →
        (ft = some "" ∨ fc = some "" ∨ fs = some "" ∨ fw = some ""
          ∨ fl = some "") →
        startup u pw d ft fc fs fw fl = StartupResult.proceed false)
    ∧ ∀ lp, upload_step lp false ≠ UploadAction.upload := by
  refine ⟨rfl, ?_, ?_, ?_⟩
  · intro hor
    have hcr : ORACLE_CREDS_PRESENT u pw d = false := by
      rcases hor with h | h | h <;> subst h <;>
        simp [ORACLE_CREDS_PRESENT, truthy]
    simp [startup, hcr]
  · intro hok hor
    have hfb : FABRIC_CONFIG_COMPLETE ft fc fs fw fl = false := by
      rcases hor with h | h | h | h | h <;> subst h <;>
        simp [FABRIC_CONFIG_COMPLETE, truthy]
    simp [startup, hok, hfb]
  · intro lp
    cases hl : truthy lp <;> simp [upload_step, hl]

/-- Witness for C10: an empty `ORACLE_DB_USER` is fatal at startup. -/
theorem empty_env_var_same_as_absent_witness :
    startup (some "") (some "pw") (some "dsn") none none none none none
      = StartupResult.fatalExit :=
  (empty_env_var_same_as_absent (some "") (some "pw") (some "dsn")
    none none none none none).2.1 (Or.inl rfl)

end RunAll
